import Mathlib

/-!
# Verification of the Orchesity LLM orchestrator core

Shallow embedding of `src/services/llm_orchestrator.py` and
`src/services/cache.py` from the Orchesity IDE OSS repository, together with
theorems settling the specification claims about provider selection,
concurrent dispatch aggregation, load accounting, caching and error handling.

Machine reals (Python floats) are modelled as `ℚ`; Python exceptions are
modelled with `Except`; the asynchronous provider call and the Redis backend
are modelled as explicit outcome parameters (oracles).

The `DWA` module (`DynamicWeightAlgorithm`) is imported by the orchestrator
but its source is not part of the repository snapshot; where its behaviour is
needed it is modelled from the spec, and where only its interface is needed
(`select_best_provider`) it is passed as a function parameter.
-/

deriving instance DecidableEq for Except

namespace Orchesity

/-- The `LLMProvider` enum (`src/models.py`, members known from the call
sites in `llm_orchestrator.py`: OPENAI, ANTHROPIC, GEMINI, GROK). -/
inductive LLMProvider where
  | openai
  | anthropic
  | gemini
  | grok
deriving DecidableEq, Repr

/-- `provider.value` — the string value of the enum member. -/
def LLMProvider.value : LLMProvider → String
  | .openai => "openai"
  | .anthropic => "anthropic"
  | .gemini => "gemini"
  | .grok => "grok"

/-- The `LLMProvider(name)` constructor: `some` on a known value string,
`none` where Python raises `ValueError`. -/
def LLMProvider.ofValue : String → Option LLMProvider
  | "openai" => some .openai
  | "anthropic" => some .anthropic
  | "gemini" => some .gemini
  | "grok" => some .grok
  | _ => none

/-- `list(LLMProvider)` — the known providers, in enum definition order. -/
def allProviders : List LLMProvider :=
  [.openai, .anthropic, .gemini, .grok]

/-- The provider-credential slice of `Settings` (`src/config.py`): the four
optional API keys.  `none` models an unset key, `some s` a set value
(Python truthiness of a string: the empty string is falsy). -/
structure Settings where
  openai_api_key : Option String
  anthropic_api_key : Option String
  gemini_api_key : Option String
  grok_api_key : Option String
deriving DecidableEq, Repr

/-- Python `bool(x)` for an `Optional[str]`. -/
def strTruthy : Option String → Bool
  | none => false
  | some s => !s.isEmpty

/-- `LLMOrchestrator._has_api_key`. -/
def hasApiKey (s : Settings) : LLMProvider → Bool
  | .openai => strTruthy s.openai_api_key
  | .anthropic => strTruthy s.anthropic_api_key
  | .gemini => strTruthy s.gemini_api_key
  | .grok => strTruthy s.grok_api_key

/-- The `ProviderLoad` dataclass.  `current_load` is a Python `int`,
modelled as `Int` so that the non-negativity invariant is a real statement;
`response_time` and `error_rate` are floats, modelled as `ℚ`. -/
structure ProviderLoad where
  current_load : Int
  max_load : Int
  response_time : ℚ
  error_rate : ℚ
deriving DecidableEq, Repr

/-- `LLMOrchestrator._is_provider_available`: configured API key and
`current_load < max_load`. -/
def isProviderAvailable (s : Settings) (loads : LLMProvider → ProviderLoad)
    (p : LLMProvider) : Bool :=
  hasApiKey s p && decide ((loads p).current_load < (loads p).max_load)

/-- `OrchestrationRequest` (fields the orchestrator reads: prompt text,
requested providers, streaming flag). -/
structure OrchestrationRequest where
  prompt : String
  providers : List LLMProvider
  stream : Bool
deriving DecidableEq, Repr

/-- `LLMResult` (fields constructed in `_execute_provider_request`). -/
structure LLMResult where
  provider : LLMProvider
  model : String
  response : String
  response_time : ℚ
  tokens_used : ℚ
deriving DecidableEq, Repr

/-- The error dictionary built in `orchestrate` for a failed provider task:
provider identity, error description, timestamp. -/
structure ErrorInfo where
  provider : String
  error : String
  timestamp : ℚ
deriving DecidableEq, Repr

/-- `LLMOrchestrator._get_provider_model`. -/
def getProviderModel : LLMProvider → String
  | .openai => "gpt-4"
  | .anthropic => "claude-3-sonnet"
  | .gemini => "gemini-pro"
  | .grok => "grok-1"

/-- `LLMOrchestrator._update_provider_load`: on success, response time is
averaged in and the error rate drops by 0.01 clamped at 0; on failure the
error rate rises by 0.1 clamped at 1.0.  (`current_load` is untouched.) -/
def updateProviderLoad (load : ProviderLoad) (success : Bool)
    (response_time : ℚ) : ProviderLoad :=
  if success then
    { load with
      response_time := (load.response_time + response_time) / 2,
      error_rate := max 0 (load.error_rate - 1/100) }
  else
    { load with error_rate := min 1 (load.error_rate + 1/10) }

/-- Modelled from the spec: the `ProviderMetrics` record owned by the
`DynamicWeightAlgorithm` module, whose source file (`src/services/DWA.py`) is
missing from the repository snapshot.  Fields follow spec §3
(token/cost/timestamp bookkeeping omitted; no claim touches it). -/
structure ProviderMetrics where
  accuracy : ℚ
  speed : ℚ
  availability : ℚ
  consecutiveFailures : Nat
  totalRequests : Nat
  successfulRequests : Nat
  isHealthy : Bool
deriving DecidableEq, Repr

/-- Modelled from the spec: neutral default metrics
(`accuracy = 1`, `availability = 1`, counters zeroed, healthy). -/
def ProviderMetrics.neutral : ProviderMetrics :=
  { accuracy := 1, speed := 1, availability := 1,
    consecutiveFailures := 0, totalRequests := 0,
    successfulRequests := 0, isHealthy := true }

/-- Modelled from the spec: `DynamicWeightAlgorithm.record_request_result`
(spec §4.2), whose source is missing from the snapshot.  On success:
`totalRequests += 1`, `successfulRequests += 1`, `consecutiveFailures = 0`,
accuracy recomputed as the success ratio, availability nudged up with a
bounded step; on failure: `totalRequests += 1`, `consecutiveFailures += 1`,
accuracy recomputed, availability nudged down with a larger step, health
dropped once the failure streak crosses the threshold (3). -/
def recordRequestResult (m : ProviderMetrics) (success : Bool)
    (responseTime : ℚ) : ProviderMetrics :=
  let total := m.totalRequests + 1
  if success then
    let succ := m.successfulRequests + 1
    { m with
      totalRequests := total,
      successfulRequests := succ,
      consecutiveFailures := 0,
      accuracy := (succ : ℚ) / (total : ℚ),
      speed := (m.speed + 1 / (responseTime + 1)) / 2,
      availability := min 1 (m.availability + 1/20),
      isHealthy := true }
  else
    let cf := m.consecutiveFailures + 1
    { m with
      totalRequests := total,
      consecutiveFailures := cf,
      accuracy := (m.successfulRequests : ℚ) / (total : ℚ),
      availability := max 0 (m.availability - 1/10),
      isHealthy := if cf > 3 then false else m.isHealthy }

/-- The DWA state visible to the orchestrator: one `ProviderMetrics` per
known provider (`dwa.provider_metrics`, initialised for every member of
`LLMProvider` at construction). -/
structure DWAState where
  metrics : LLMProvider → ProviderMetrics

/-- Pointwise update of the metrics table for one provider, as performed by
`dwa.record_request_result(provider.value, ...)`. -/
def DWAState.record (d : DWAState) (p : LLMProvider) (success : Bool)
    (responseTime : ℚ) : DWAState :=
  ⟨fun q => if q = p then recordRequestResult (d.metrics p) success responseTime
            else d.metrics q⟩

/-- The `RoutingStrategy` enum. -/
inductive RoutingStrategy where
  | round_robin
  | load_balanced
  | random
  | priority
deriving DecidableEq, Repr

/-- `LLMOrchestrator._round_robin_select`: the code returns `providers[:1]`
(the comment admits the cursor is not tracked). -/
def roundRobinSelect (providers : List LLMProvider) : List LLMProvider :=
  providers.take 1

/-- Stable insertion into a key-sorted list: the new element goes after any
element with an equal key, like Python's stable `sorted`. -/
def insertSorted {α β : Type} [LinearOrder β] (key : α → β) (x : α) :
    List α → List α
  | [] => [x]
  | y :: ys => if key x < key y then x :: y :: ys else y :: insertSorted key x ys

/-- Stable sort by key (insertion sort), modelling Python's `sorted`. -/
def sortOn {α β : Type} [LinearOrder β] (key : α → β) (l : List α) : List α :=
  l.foldl (fun acc x => insertSorted key x acc) []

/-- `LLMOrchestrator._load_balanced_select`: sort by `current_load`
(Python `sorted` is stable) and take the first. -/
def loadBalancedSelect (loads : LLMProvider → ProviderLoad)
    (providers : List LLMProvider) : List LLMProvider :=
  (sortOn (fun p => (loads p).current_load) providers).take 1

/-- `LLMOrchestrator._priority_select`: first provider of the fixed priority
order present in the candidate list, else `providers[:1]`. -/
def prioritySelect (providers : List LLMProvider) : List LLMProvider :=
  match allProviders.find? (fun q => providers.contains q) with
  | some q => [q]
  | none => providers.take 1

/-- The strategy fallback at the end of `_select_providers` (reached when the
DWA-based selection produced an empty list).  `random.choice` is modelled by
the oracle `randChoice`. -/
def strategyFallback (strategy : RoutingStrategy)
    (loads : LLMProvider → ProviderLoad)
    (randChoice : List LLMProvider → LLMProvider)
    (available : List LLMProvider) : List LLMProvider :=
  match strategy with
  | .round_robin => roundRobinSelect available
  | .load_balanced => loadBalancedSelect loads available
  | .random => [randChoice available]
  | .priority => prioritySelect available

/-- One pass of the multi-provider DWA loop body in `_select_providers`:
given the accumulated `(selected, exclude)` pair, consult
`select_best_provider` with the current exclusion list and accumulate.  A
name that is no valid provider joins the exclusion list; a valid provider
outside the availability list is skipped (the code extends neither list);
`none` ends the loop (modelled by the driver below). -/
def dwaMultiStep (selectBest : List String → Option String)
    (available : List LLMProvider)
    (acc : List LLMProvider × List String) :
    Option (List LLMProvider × List String) :=
  match selectBest acc.2 with
  | some name =>
    match LLMProvider.ofValue name with
    | some p =>
      if available.contains p then some (acc.1 ++ [p], acc.2 ++ [name])
      else some acc
    | none => some (acc.1, acc.2 ++ [name])
  | none => none

/-- The multi-provider branch of `_select_providers`: iterate the loop body
`min (available.length) 3` times, stopping early when
`select_best_provider` returns no name. -/
def dwaMultiSelectAux (selectBest : List String → Option String)
    (available : List LLMProvider) :
    Nat → List LLMProvider × List String → List LLMProvider × List String
  | 0, acc => acc
  | n + 1, acc =>
    match dwaMultiStep selectBest available acc with
    | some acc' => dwaMultiSelectAux selectBest available n acc'
    | none => acc

/-- The selected shortlist produced by the multi-provider DWA loop. -/
def dwaMultiSelect (selectBest : List String → Option String)
    (available : List LLMProvider) : List LLMProvider :=
  (dwaMultiSelectAux selectBest available (min available.length 3) ([], [])).1

/-- The candidate computation opening `_select_providers`: the requested
providers filtered by availability, falling back to the full known-provider
set filtered by availability when that filter is empty. -/
def availableSet (s : Settings) (loads : LLMProvider → ProviderLoad)
    (requested : List LLMProvider) : List LLMProvider :=
  let avail0 := requested.filter (fun p => isProviderAvailable s loads p)
  if avail0.isEmpty then
    allProviders.filter (fun p => isProviderAvailable s loads p)
  else avail0

/-- `LLMOrchestrator._select_providers`.  Raising `ValueError` is modelled
with `Except.error`; `dwa.select_best_provider` is the collaborator
`selectBest`; `dwa.provider_metrics` is `dwaMetrics` (total: the DWA is
constructed with every member of `LLMProvider`). -/
def selectProviders (s : Settings) (loads : LLMProvider → ProviderLoad)
    (dwaMetrics : LLMProvider → ProviderMetrics)
    (selectBest : List String → Option String)
    (strategy : RoutingStrategy)
    (randChoice : List LLMProvider → LLMProvider)
    (requested : List LLMProvider) : Except String (List LLMProvider) :=
  let available := availableSet s loads requested
  if available.isEmpty then
    .error "No LLM providers are configured or available"
  else
    let selected :=
      match requested with
      | [p] =>
        if (dwaMetrics p).availability > 1/10 then requested
        else
          match selectBest [] with
          | some name =>
            match LLMProvider.ofValue name with
            | some q => [q]
            | none => []
          | none => []
      | _ => dwaMultiSelect selectBest available
    let selected :=
      if selected.isEmpty then
        strategyFallback strategy loads randChoice available
      else selected
    .ok selected

/-- A cached LLM response as read back by
`cache.get_cached_llm_response` (the fields `_execute_provider_request`
extracts: `response`, `response_time`, and `tokens_used` with default 0). -/
structure CachedResponse where
  response : String
  response_time : ℚ
  tokens_used : ℚ
deriving DecidableEq, Repr

/-- The environment of one `_execute_provider_request` invocation: the cache
lookup outcome for `(prompt, provider, model)`, the outcome of the awaited
`_call_provider_api` (its response text, or the exception it raises), and the
wall-clock duration of the call. -/
structure ProviderEnv where
  cacheLookup : Option CachedResponse
  callOutcome : Except String String
  callDuration : ℚ
deriving DecidableEq, Repr

/-- The observable effects of one `_execute_provider_request` invocation:
the value returned to `asyncio.gather` (the `LLMResult`, or the exception
that propagated), the provider's `ProviderLoad` after the invocation, and
whether `_call_provider_api` was actually awaited. -/
structure ExecResult where
  outcome : Except String LLMResult
  newLoad : ProviderLoad
  calledProvider : Bool
deriving DecidableEq, Repr

/-- `LLMOrchestrator._execute_provider_request`: for a non-streaming request
a cache hit returns the synthesized `LLMResult` immediately (no provider
call, no load change); otherwise `current_load` is incremented, the provider
API is awaited, `current_load` is decremented in the `finally` block on both
the success and the exception path, and the token estimate is
`len(response.split()) * 1.3`. -/
def executeProviderRequest (p : LLMProvider) (req : OrchestrationRequest)
    (env : ProviderEnv) (load : ProviderLoad) : ExecResult :=
  let model := getProviderModel p
  match (if req.stream then none else env.cacheLookup) with
  | some cached =>
    { outcome := .ok
        { provider := p, model := model, response := cached.response,
          response_time := cached.response_time,
          tokens_used := cached.tokens_used },
      newLoad := load,
      calledProvider := false }
  | none =>
    let loadInc := { load with current_load := load.current_load + 1 }
    match env.callOutcome with
    | .ok response =>
      let tokens : ℚ := ((response.splitOn " ").length : ℚ) * (13/10)
      { outcome := .ok
          { provider := p, model := model, response := response,
            response_time := env.callDuration, tokens_used := tokens },
        newLoad := { loadInc with current_load := loadInc.current_load - 1 },
        calledProvider := true }
    | .error e =>
      { outcome := .error e,
        newLoad := { loadInc with current_load := loadInc.current_load - 1 },
        calledProvider := true }

/-- One concurrent provider task's outcome as seen at the `asyncio.gather`
join, together with the (model-level) wall-clock time at which the task
completed.  `gather` hands the outcomes back in submission order whatever
the completion times are. -/
structure TaskOutcome where
  result : Except String LLMResult
  completionTime : ℚ
deriving DecidableEq, Repr

/-- The mutable orchestrator state threaded through result processing:
per-provider load records and the DWA metrics table. -/
structure OrchState where
  loads : LLMProvider → ProviderLoad
  dwa : DWAState

/-- Result of the aggregation loop of `orchestrate`: the `results` and
`errors` lists and the updated orchestrator state. -/
structure ProcessedResults where
  results : List LLMResult
  errors : List ErrorInfo
  state : OrchState

/-- The result-processing loop of `orchestrate` (lines 95–126): walk the
gathered task outcomes in submission order; an exception appends an
`ErrorInfo` (provider identity, message, `time.time()` timestamp) and
records a failure in the load table and in DWA (penalty time 1.0); a result
appends it to `results` and records a success with its response time. -/
def processOutcomes (now : ℚ) :
    List (LLMProvider × Except String LLMResult) → OrchState →
    ProcessedResults
  | [], st => { results := [], errors := [], state := st }
  | (p, .error e) :: rest, st =>
    let st' : OrchState :=
      { loads := fun q => if q = p then updateProviderLoad (st.loads p) false 0
                          else st.loads q,
        dwa := st.dwa.record p false 1 }
    let tail := processOutcomes now rest st'
    { tail with
      errors := { provider := p.value, error := e, timestamp := now }
                  :: tail.errors }
  | (p, .ok r) :: rest, st =>
    let st' : OrchState :=
      { loads := fun q =>
          if q = p then updateProviderLoad (st.loads p) true r.response_time
          else st.loads q,
        dwa := st.dwa.record p true r.response_time }
    let tail := processOutcomes now rest st'
    { tail with results := r :: tail.results }

/-- `LLMOrchestrator.orchestrate` after provider selection: fan the request
out to every selected provider (each with its own environment), join all
tasks (`asyncio.gather` keeps submission order), and run the aggregation
loop.  Also exposes which providers' API calls were actually awaited. -/
def orchestrateDispatch (req : OrchestrationRequest)
    (envOf : LLMProvider → ProviderEnv) (now : ℚ)
    (selected : List LLMProvider) (st : OrchState) :
    ProcessedResults × List Bool :=
  let execs := selected.map (fun p =>
    (p, executeProviderRequest p req (envOf p) (st.loads p)))
  let stAfterExec : OrchState :=
    { st with
      loads := fun q =>
        match execs.find? (fun e => e.1 = q) with
        | some e => e.2.newLoad
        | none => st.loads q }
  let outcomes := execs.map (fun e => (e.1, e.2.outcome))
  (processOutcomes now outcomes stAfterExec,
   execs.map (fun e => e.2.calledProvider))

/-- The ordering the spec prescribes for `orchestrate`'s successes (spec
words, for comparison with the code's aggregation): the successful results
listed in completion order of the concurrent provider tasks. -/
def completionOrderSuccesses (tasks : List (LLMProvider × TaskOutcome)) :
    List LLMResult :=
  (sortOn (fun t => t.2.completionTime) tasks).filterMap
    (fun t => t.2.result.toOption)

/-! ## The Redis cache service (`src/services/cache.py`)

The Redis client is an unreliable external collaborator: each backend
operation is modelled as an `Except` oracle (the value it returns, or the
exception it raises).  JSON encoding/decoding is likewise an oracle. -/

/-- `RedisCache.get`: when disconnected or without a client, return `None`
immediately; otherwise await `redis_client.get` — any exception from the
backend or from `json.loads` is caught and turns into `None`.  A present
non-empty value is decoded (the metadata update swallows its own errors and
does not affect the returned value); a missing or falsy value is a miss. -/
def cacheGet (is_connected : Bool) (hasClient : Bool)
    (backendGet : Except String (Option String))
    (decode : String → Except String CachedResponse) :
    Option CachedResponse :=
  if !(is_connected && hasClient) then none
  else
    match backendGet with
    | .error _ => none
    | .ok none => none
    | .ok (some s) =>
      if s.isEmpty then none
      else
        match decode s with
        | .error _ => none
        | .ok v => some v

/-- `RedisCache.set`: when disconnected or without a client, return `False`
immediately; otherwise encode the value and await `redis_client.setex` — any
exception (encoding, the write itself, or the follow-up metadata store) is
caught and turns into `False`; otherwise the result is
`bool(success)`. -/
def cacheSet (is_connected : Bool) (hasClient : Bool)
    (encode : Except String String)
    (backendSetex : String → Except String Bool)
    (metaStore : Except String Unit) : Bool :=
  if !(is_connected && hasClient) then false
  else
    match encode with
    | .error _ => false
    | .ok js =>
      match backendSetex js with
      | .error _ => false
      | .ok success =>
        if success then
          match metaStore with
          | .error _ => false
          | .ok _ => true
        else false

/-! ## Concrete fixtures used in counterexamples and witnesses -/

/-- A fresh load record (`current_load = 0`, `max_load = 10`). -/
def load0 : ProviderLoad := ⟨0, 10, 0, 0⟩

/-- A fresh orchestrator state: fresh loads, neutral DWA metrics. -/
def st0 : OrchState := ⟨fun _ => load0, ⟨fun _ => ProviderMetrics.neutral⟩⟩

/-- Settings with every provider API key configured. -/
def allKeys : Settings := ⟨some "k1", some "k2", some "k3", some "k4"⟩

/-- Settings with no provider API key configured. -/
def noKeys : Settings := ⟨none, none, none, none⟩

/-- Metrics whose availability (0) fails the validation floor (0.1). -/
def zeroAvailMetrics : ProviderMetrics :=
  { ProviderMetrics.neutral with availability := 0 }

/-- A successful result attributed to `openai`. -/
def resultA : LLMResult := ⟨.openai, "gpt-4", "answer A", 2, 3⟩

/-- A successful result attributed to `anthropic`. -/
def resultB : LLMResult := ⟨.anthropic, "claude-3-sonnet", "answer B", 1, 3⟩

/-- Two concurrent tasks where the second-submitted task (`anthropic`,
completion time 1) finishes before the first-submitted one (`openai`,
completion time 2). -/
def tasksAB : List (LLMProvider × TaskOutcome) :=
  [(.openai, ⟨.ok resultA, 2⟩), (.anthropic, ⟨.ok resultB, 1⟩)]

/-- A cached response for the repeated `(prompt, provider, model)` triple. -/
def cachedR : CachedResponse := ⟨"cached answer", 1, 5⟩

/-- An execution environment whose cache lookup hits. -/
def hitEnv : ProviderEnv := ⟨some cachedR, .ok "fresh", 1⟩

/-- Dispatch of a single non-streaming request to `openai` whose cache
lookup hits, starting from the fresh orchestrator state. -/
def hitDispatch : ProcessedResults × List Bool :=
  orchestrateDispatch ⟨"hi", [.openai], false⟩ (fun _ => hitEnv) 0
    [.openai] st0

/-- Gathered outcomes for three selected providers of which two fail and
one succeeds. -/
def outs3 : List (LLMProvider × Except String LLMResult) :=
  [(.openai, .error "rate limited"),
   (.anthropic, .ok resultB),
   (.gemini, .error "timeout")]

/-! ## Helper lemmas -/

lemma processOutcomes_results_eq (now : ℚ)
    (outs : List (LLMProvider × Except String LLMResult)) (st : OrchState) :
    (processOutcomes now outs st).results
      = outs.filterMap (fun o => o.2.toOption) := by
  induction outs generalizing st with
  | nil => rfl
  | cons o rest ih =>
    obtain ⟨p, r⟩ := o
    cases r with
    | error e => simp [processOutcomes, ih, Except.toOption]
    | ok v => simp [processOutcomes, ih, Except.toOption]

lemma processOutcomes_errors_eq (now : ℚ)
    (outs : List (LLMProvider × Except String LLMResult)) (st : OrchState) :
    (processOutcomes now outs st).errors
      = outs.filterMap (fun o =>
          match o.2 with
          | .error e =>
            some { provider := o.1.value, error := e, timestamp := now }
          | .ok _ => none) := by
  induction outs generalizing st with
  | nil => rfl
  | cons o rest ih =>
    obtain ⟨p, r⟩ := o
    cases r with
    | error e => simp [processOutcomes, ih]
    | ok v => simp [processOutcomes, ih]

lemma processOutcomes_length (now : ℚ)
    (outs : List (LLMProvider × Except String LLMResult)) (st : OrchState) :
    (processOutcomes now outs st).results.length
      + (processOutcomes now outs st).errors.length = outs.length := by
  induction outs generalizing st with
  | nil => rfl
  | cons o rest ih =>
    obtain ⟨p, r⟩ := o
    cases r with
    | error e =>
      have := ih
        { loads := fun q =>
            if q = p then updateProviderLoad (st.loads p) false 0
            else st.loads q,
          dwa := st.dwa.record p false 1 }
      simp only [processOutcomes, List.length_cons] at this ⊢
      omega
    | ok v =>
      have := ih
        { loads := fun q =>
            if q = p then updateProviderLoad (st.loads p) true v.response_time
            else st.loads q,
          dwa := st.dwa.record p true v.response_time }
      simp only [processOutcomes, List.length_cons] at this ⊢
      omega

lemma mem_allProviders (p : LLMProvider) : p ∈ allProviders := by
  cases p <;> decide

lemma availableSet_eq_nil_iff (s : Settings)
    (loads : LLMProvider → ProviderLoad) (requested : List LLMProvider) :
    availableSet s loads requested = []
      ↔ ∀ p : LLMProvider, isProviderAvailable s loads p = false := by
  unfold availableSet
  by_cases h : (requested.filter
      (fun p => isProviderAvailable s loads p)).isEmpty
  · simp only [h, if_pos]
    constructor
    · intro hall p
      have := List.filter_eq_nil_iff.mp hall p (mem_allProviders p)
      simpa using this
    · intro hp
      exact List.filter_eq_nil_iff.mpr (fun p _ => by simp [hp p])
  · simp only [h, if_neg, Bool.false_eq_true, not_false_iff]
    constructor
    · intro hnil
      exact absurd (List.isEmpty_iff.mpr hnil) (by simp_all)
    · intro hp
      have hnil : requested.filter (fun p => isProviderAvailable s loads p)
          = [] :=
        List.filter_eq_nil_iff.mpr (fun p _ => by simp [hp p])
      exact absurd (List.isEmpty_iff.mpr hnil) (by simp_all)

lemma availableSet_ne_nil_of_mem (s : Settings)
    (loads : LLMProvider → ProviderLoad) (requested : List LLMProvider)
    (q : LLMProvider) (hq : isProviderAvailable s loads q = true) :
    availableSet s loads requested ≠ [] := by
  intro hnil
  have := (availableSet_eq_nil_iff s loads requested).mp hnil q
  simp [hq] at this

lemma updateProviderLoad_current_load (l : ProviderLoad) (b : Bool)
    (rt : ℚ) :
    (updateProviderLoad l b rt).current_load = l.current_load := by
  unfold updateProviderLoad
  cases b <;> rfl

lemma ofValue_value {name : String} {p : LLMProvider}
    (h : LLMProvider.ofValue name = some p) : p.value = name := by
  unfold LLMProvider.ofValue at h
  split at h <;> simp_all [LLMProvider.value] <;> subst h <;> rfl

lemma dwaMultiSelectAux_invariant
    (selectBest : List String → Option String)
    (hexcl : ∀ excl name, selectBest excl = some name → name ∉ excl)
    (available : List LLMProvider) :
    ∀ (n : Nat) (sel : List LLMProvider) (excl : List String),
      sel.Nodup → (∀ p ∈ sel, p.value ∈ excl) →
      ((dwaMultiSelectAux selectBest available n (sel, excl)).1.Nodup ∧
        (dwaMultiSelectAux selectBest available n (sel, excl)).1.length
          ≤ sel.length + n ∧
        ∀ p ∈ (dwaMultiSelectAux selectBest available n (sel, excl)).1,
          p.value ∈ (dwaMultiSelectAux selectBest available n (sel, excl)).2)
    := by
  intro n
  induction n with
  | zero =>
    intro sel excl h1 h2
    exact ⟨h1, by simp [dwaMultiSelectAux], h2⟩
  | succ n ih =>
    intro sel excl h1 h2
    cases hsb : selectBest excl with
    | none =>
      simp only [dwaMultiSelectAux, dwaMultiStep, hsb]
      exact ⟨h1, by omega, h2⟩
    | some name =>
      have hnot : name ∉ excl := hexcl _ _ hsb
      cases hof : LLMProvider.ofValue name with
      | none =>
        simp only [dwaMultiSelectAux, dwaMultiStep, hsb, hof]
        have := ih sel (excl ++ [name]) h1
          (fun p hp => List.mem_append_left _ (h2 p hp))
        exact ⟨this.1, by have := this.2.1; omega, this.2.2⟩
      | some q =>
        by_cases hmem : available.contains q
        · simp only [dwaMultiSelectAux, dwaMultiStep, hsb, hof, hmem,
            if_pos]
          have hq : q ∉ sel := fun hin => hnot (ofValue_value hof ▸ h2 q hin)
          have hnd : (sel ++ [q]).Nodup := by
            simp [List.nodup_append, h1, hq]
          have hinv : ∀ p ∈ sel ++ [q], p.value ∈ excl ++ [name] := by
            intro p hp
            rcases List.mem_append.mp hp with h | h
            · exact List.mem_append_left _ (h2 p h)
            · simp only [List.mem_singleton] at h
              subst h
              simp [ofValue_value hof]
          have := ih (sel ++ [q]) (excl ++ [name]) hnd hinv
          refine ⟨this.1, ?_, this.2.2⟩
          have hl := this.2.1
          simp only [List.length_append, List.length_singleton] at hl
          omega
        · simp only [dwaMultiSelectAux, dwaMultiStep, hsb, hof,
            if_neg hmem]
          have := ih sel excl h1 h2
          exact ⟨this.1, by have := this.2.1; omega, this.2.2⟩

/-! ## Claim theorems -/

/-- **C10**: `_update_provider_load` keeps `error_rate` in the unit
interval: a success lowers it by 0.01 clamping at 0, a failure raises it by
0.1 clamping at 1, and no update leaves `[0,1]` when the rate starts
there. -/
theorem C10_error_rate_stays_in_unit_interval
    (load : ProviderLoad) (success : Bool) (rt : ℚ)
    (h0 : 0 ≤ load.error_rate) (h1 : load.error_rate ≤ 1) :
    (0 ≤ (updateProviderLoad load success rt).error_rate ∧
      (updateProviderLoad load success rt).error_rate ≤ 1) ∧
    (updateProviderLoad load true rt).error_rate
        = max 0 (load.error_rate - 1/100) ∧
    (updateProviderLoad load false rt).error_rate
        = min 1 (load.error_rate + 1/10) := by
  refine ⟨?_, by simp [updateProviderLoad], by simp [updateProviderLoad]⟩
  cases success with
  | true =>
    refine ⟨by simp [updateProviderLoad], ?_⟩
    simp only [updateProviderLoad, if_pos]
    exact max_le (by norm_num) (by linarith)
  | false =>
    refine ⟨?_, by simp [updateProviderLoad]⟩
    simp only [updateProviderLoad, if_neg]
    exact le_min (by norm_num) (by linarith)

theorem C10_witness :
    (0 ≤ (updateProviderLoad ⟨0, 10, 0, 1/2⟩ false 1).error_rate ∧
      (updateProviderLoad ⟨0, 10, 0, 1/2⟩ false 1).error_rate ≤ 1) ∧
    (updateProviderLoad ⟨0, 10, 0, 1/2⟩ true 1).error_rate
        = max 0 ((1:ℚ)/2 - 1/100) ∧
    (updateProviderLoad ⟨0, 10, 0, 1/2⟩ false 1).error_rate
        = min 1 ((1:ℚ)/2 + 1/10) :=
  C10_error_rate_stays_in_unit_interval ⟨0, 10, 0, 1/2⟩ false 1
    (by norm_num) (by norm_num)

/-- **C5**: `_round_robin_select` keeps no cursor at all — it returns
`providers[:1]` on every call, so four successive selections over
`[openai, anthropic, gemini]` all yield `openai`, not the cyclic sequence
the spec describes (the second call does not yield `anthropic`). -/
theorem C5_round_robin_is_static :
    (List.range 4).map
        (fun _ => roundRobinSelect [.openai, .anthropic, .gemini])
      = [[LLMProvider.openai], [.openai], [.openai], [.openai]] ∧
    roundRobinSelect [.openai, .anthropic, .gemini]
      ≠ [LLMProvider.anthropic] := by
  decide

/-- **C9**: cache failures degrade silently: with the client disconnected,
or when the backend read/write (or JSON step) raises, `RedisCache.get`
returns `None` and `RedisCache.set` returns `False` — the error never
propagates. -/
theorem C9_cache_outage_degrades_silently
    (hasClient : Bool) (bg : Except String (Option String))
    (dec : String → Except String CachedResponse)
    (enc : Except String String) (bs : String → Except String Bool)
    (meta : Except String Unit) (e : String) (js : String)
    (hbs : bs js = Except.error e) :
    cacheGet false hasClient bg dec = none ∧
    cacheSet false hasClient enc bs meta = false ∧
    cacheGet true hasClient (Except.error e) dec = none ∧
    cacheSet true hasClient (Except.error e) bs meta = false ∧
    cacheSet true hasClient (Except.ok js) bs meta = false := by
  cases hasClient <;> simp [cacheGet, cacheSet, hbs]

theorem C9_witness :
    cacheGet false true (Except.ok none)
        (fun _ => Except.error "bad json") = none ∧
    cacheSet false true (Except.ok "v")
        (fun _ => Except.error "down") (Except.ok ()) = false ∧
    cacheGet true true (Except.error "down")
        (fun _ => Except.error "bad json") = none ∧
    cacheSet true true (Except.error "down")
        (fun _ => Except.error "down") (Except.ok ()) = false ∧
    cacheSet true true (Except.ok "v")
        (fun _ => Except.error "down") (Except.ok ()) = false :=
  C9_cache_outage_degrades_silently true (Except.ok none)
    (fun _ => Except.error "bad json") (Except.ok "v")
    (fun _ => Except.error "down") (Except.ok ()) "down" "v" rfl

/-- **C6**: on the cache-miss path, `_execute_provider_request` increments
`current_load` before the provider call and decrements it in the `finally`
block on both the success and the exception path: the provider's
`current_load` after the invocation equals its value before it, and it
stays non-negative when it was non-negative. -/
theorem C6_load_admission_paired_with_release
    (p : LLMProvider) (req : OrchestrationRequest) (env : ProviderEnv)
    (load : ProviderLoad)
    (hmiss : req.stream = true ∨ env.cacheLookup = none)
    (h0 : 0 ≤ load.current_load) :
    (executeProviderRequest p req env load).newLoad.current_load
        = load.current_load ∧
    0 ≤ (executeProviderRequest p req env load).newLoad.current_load ∧
    (executeProviderRequest p req env load).calledProvider = true := by
  have hnone : (if req.stream then none else env.cacheLookup) = none := by
    rcases hmiss with h | h <;> simp [h]
  unfold executeProviderRequest
  rw [hnone]
  cases h : env.callOutcome <;> simp [h] <;> omega

theorem C6_witness :
    ((executeProviderRequest .openai ⟨"hi", [.openai], false⟩
        ⟨none, Except.error "boom", 1⟩ ⟨0, 10, 0, 0⟩).newLoad.current_load
      = (0 : Int)) ∧
    (0 ≤ (executeProviderRequest .openai ⟨"hi", [.openai], false⟩
        ⟨none, Except.error "boom", 1⟩ ⟨0, 10, 0, 0⟩).newLoad.current_load) ∧
    ((executeProviderRequest .openai ⟨"hi", [.openai], false⟩
        ⟨none, Except.error "boom", 1⟩ ⟨0, 10, 0, 0⟩).calledProvider
      = true) :=
  C6_load_admission_paired_with_release .openai ⟨"hi", [.openai], false⟩
    ⟨none, Except.error "boom", 1⟩ ⟨0, 10, 0, 0⟩ (Or.inr rfl) (by decide)

/-- **C3**: the aggregation loop of `orchestrate` yields exactly one
outcome per selected provider: the success and failure counts sum to the
number of gathered outcomes, every failure is returned as data carrying the
provider identity, the error description and a timestamp, and in the
concrete 3-provider scenario with two failures and one success the lists
have lengths 1 and 2. -/
theorem C3_one_outcome_per_selected_provider (now : ℚ)
    (outs : List (LLMProvider × Except String LLMResult)) (st : OrchState) :
    ((processOutcomes now outs st).results.length
        + (processOutcomes now outs st).errors.length = outs.length) ∧
    ((processOutcomes now outs st).errors
        = outs.filterMap (fun o =>
            match o.2 with
            | .error e =>
              some { provider := o.1.value, error := e, timestamp := now }
            | .ok _ => none)) ∧
    ((processOutcomes 0 outs3 st0).results.length = 1 ∧
      (processOutcomes 0 outs3 st0).errors.length = 2) := by
  refine ⟨processOutcomes_length now outs st,
          processOutcomes_errors_eq now outs st, ?_, ?_⟩ <;> decide

/-- **C2 (counterexample)**: the successes list of the aggregation loop is
not ordered by completion order: with the second-submitted task finishing
first, the code still lists the first-submitted task's result first
(`asyncio.gather` returns outcomes in submission order). -/
theorem C2_counterexample :
    (processOutcomes 0 (tasksAB.map (fun t => (t.1, t.2.result))) st0).results
      ≠ completionOrderSuccesses tasksAB := by
  decide

/-- **C2 (amended)**: the successes list returned by the aggregation loop
of `orchestrate` follows the submission order of the dispatched provider
tasks (`asyncio.gather` hands outcomes back in input order), not their
completion order: it is exactly the successful outcomes filtered out of the
task list in submission order. -/
theorem C2_successes_in_submission_order (now : ℚ)
    (tasks : List (LLMProvider × TaskOutcome)) (st : OrchState) :
    (processOutcomes now (tasks.map (fun t => (t.1, t.2.result))) st).results
      = tasks.filterMap (fun t => t.2.result.toOption) := by
  rw [processOutcomes_results_eq]
  rw [List.filterMap_map]
  rfl

/-- **C4**: `_select_providers` raises the terminal "no providers" error
exactly when no known provider is available, availability is precisely
"API key configured and `current_load < max_load`", and when the requested
providers intersected with availability is empty the candidate set falls
back to the full known-provider list filtered by availability. -/
theorem C4_no_providers_error_iff
    (s : Settings) (loads : LLMProvider → ProviderLoad)
    (dwaMetrics : LLMProvider → ProviderMetrics)
    (selectBest : List String → Option String)
    (strategy : RoutingStrategy)
    (randChoice : List LLMProvider → LLMProvider)
    (requested : List LLMProvider) :
    (selectProviders s loads dwaMetrics selectBest strategy randChoice
          requested
        = .error "No LLM providers are configured or available"
      ↔ ∀ p : LLMProvider, isProviderAvailable s loads p = false) ∧
    (∀ p : LLMProvider, isProviderAvailable s loads p
        = (hasApiKey s p
            && decide ((loads p).current_load < (loads p).max_load))) ∧
    (requested.filter (fun p => isProviderAvailable s loads p) = [] →
      availableSet s loads requested
        = allProviders.filter (fun p => isProviderAvailable s loads p)) := by
  refine ⟨?_, fun p => rfl, ?_⟩
  · unfold selectProviders
    by_cases h : (availableSet s loads requested).isEmpty
    · have hall := (availableSet_eq_nil_iff s loads requested).mp
        (List.isEmpty_iff.mp h)
      simp [h, hall]
    · simp only [h, Bool.false_eq_true, if_neg, not_false_iff]
      constructor
      · intro hcontra
        exact absurd hcontra (by simp)
      · intro hall
        exact absurd (List.isEmpty_iff.mpr
          ((availableSet_eq_nil_iff s loads requested).mpr hall)) (by simp_all)
  · intro hfil
    unfold availableSet
    simp [hfil]

theorem C4_witness :
    (selectProviders noKeys (fun _ => load0) (fun _ => ProviderMetrics.neutral)
        (fun _ => none) .round_robin (fun _ => .openai) [.openai]
      = .error "No LLM providers are configured or available") ∧
    availableSet noKeys (fun _ => load0) [.openai]
      = allProviders.filter
          (fun p => isProviderAvailable noKeys (fun _ => load0) p) :=
  ⟨(C4_no_providers_error_iff noKeys (fun _ => load0)
      (fun _ => ProviderMetrics.neutral) (fun _ => none) .round_robin
      (fun _ => .openai) [.openai]).1.mpr (by intro p; cases p <;> rfl),
   (C4_no_providers_error_iff noKeys (fun _ => load0)
      (fun _ => ProviderMetrics.neutral) (fun _ => none) .round_robin
      (fun _ => .openai) [.openai]).2.2 rfl⟩

/-- **C7 (counterexample)**: a single requested provider that fails the
DWA availability validation (availability 0, not exceeding the 0.1 floor)
can still end up as the selected provider: when `select_best_provider`
returns no name, `_select_providers` falls through to the routing-strategy
fallback, which re-selects the requested provider — refuting both the
"kept iff availability exceeds the floor" direction and the unconditional
"DWA best is substituted" consequence. -/
theorem C7_counterexample :
    selectProviders allKeys (fun _ => load0) (fun _ => zeroAvailMetrics)
        (fun _ => none) .round_robin (fun _ => .openai) [.openai]
      = .ok [.openai] ∧
    ¬ (zeroAvailMetrics.availability > 1/10) := by
  have hfloor : ¬ (zeroAvailMetrics.availability > (1:ℚ)/10) := by
    norm_num [zeroAvailMetrics, ProviderMetrics.neutral]
  refine ⟨?_, hfloor⟩
  unfold selectProviders
  rw [show availableSet allKeys (fun _ => load0) [.openai] = [.openai]
        from rfl]
  rw [if_neg (by simp)]
  simp only []
  rw [if_neg hfloor]
  rfl

/-- **C7 (amended)**: for a request naming exactly one provider whose
candidate set is non-empty, the provider is kept when its DWA availability
exceeds the 0.1 floor; when it fails validation and `select_best_provider`
names a valid provider, that provider is substituted (when the DWA names no
provider, selection instead falls to the routing-strategy fallback, which
may re-select the requested provider). -/
theorem C7_single_provider_validation
    (s : Settings) (loads : LLMProvider → ProviderLoad)
    (dwaMetrics : LLMProvider → ProviderMetrics)
    (selectBest : List String → Option String)
    (strategy : RoutingStrategy)
    (randChoice : List LLMProvider → LLMProvider)
    (p : LLMProvider)
    (havail : availableSet s loads [p] ≠ []) :
    ((dwaMetrics p).availability > 1/10 →
      selectProviders s loads dwaMetrics selectBest strategy randChoice [p]
        = .ok [p]) ∧
    (¬ (dwaMetrics p).availability > 1/10 →
      ∀ name q, selectBest [] = some name →
        LLMProvider.ofValue name = some q →
        selectProviders s loads dwaMetrics selectBest strategy randChoice [p]
          = .ok [q]) := by
  have hne : (availableSet s loads [p]).isEmpty = false := by
    simp [List.isEmpty_iff, havail]
  constructor
  · intro hfloor
    unfold selectProviders
    rw [if_neg (by simp [hne])]
    simp only []
    rw [if_pos hfloor]
    rfl
  · intro hfloor name q hsb hof
    unfold selectProviders
    rw [if_neg (by simp [hne])]
    simp only []
    rw [if_neg hfloor, hsb]
    simp [hof]

theorem C7_witness :
    (selectProviders allKeys (fun _ => load0)
        (fun _ => ProviderMetrics.neutral) (fun _ => some "anthropic")
        .round_robin (fun _ => .openai) [.openai]
      = .ok [.openai]) ∧
    (selectProviders allKeys (fun _ => load0) (fun _ => zeroAvailMetrics)
        (fun _ => some "anthropic") .round_robin (fun _ => .openai) [.openai]
      = .ok [.anthropic]) :=
  ⟨(C7_single_provider_validation allKeys (fun _ => load0)
      (fun _ => ProviderMetrics.neutral) (fun _ => some "anthropic")
      .round_robin (fun _ => .openai) .openai (by decide)).1
      (by norm_num [ProviderMetrics.neutral]),
   (C7_single_provider_validation allKeys (fun _ => load0)
      (fun _ => zeroAvailMetrics) (fun _ => some "anthropic")
      .round_robin (fun _ => .openai) .openai (by decide)).2
      (by norm_num [zeroAvailMetrics, ProviderMetrics.neutral])
      "anthropic" .anthropic rfl rfl⟩

/-- **C8**: the multi-provider shortlist of `_select_providers` is built by
repeatedly consulting `select_best_provider` with every previously chosen
provider's name excluded, iterating at most `min (#available) 3` times and
stopping early when no name is returned; provided the DWA collaborator
never returns an excluded name (its spec contract), the shortlist has at
most 3 providers and contains no duplicates. -/
theorem C8_shortlist_capped_and_duplicate_free
    (selectBest : List String → Option String)
    (available : List LLMProvider)
    (hexcl : ∀ excl name, selectBest excl = some name → name ∉ excl) :
    (dwaMultiSelect selectBest available).length ≤ 3 ∧
    (dwaMultiSelect selectBest available).Nodup := by
  have h := dwaMultiSelectAux_invariant selectBest hexcl available
    (min available.length 3) [] [] (by simp) (by simp)
  have hmin : min available.length 3 ≤ 3 := Nat.min_le_right _ _
  unfold dwaMultiSelect
  refine ⟨?_, h.1⟩
  have := h.2.1
  simp only [List.length_nil, Nat.zero_add] at this
  omega

theorem C8_witness :
    (dwaMultiSelect
        (fun excl =>
          if "openai" ∈ excl then
            if "anthropic" ∈ excl then none else some "anthropic"
          else some "openai")
        [.openai, .anthropic, .gemini]).length ≤ 3 ∧
    (dwaMultiSelect
        (fun excl =>
          if "openai" ∈ excl then
            if "anthropic" ∈ excl then none else some "anthropic"
          else some "openai")
        [.openai, .anthropic, .gemini]).Nodup :=
  C8_shortlist_capped_and_duplicate_free _ _ (by
    intro excl name h
    by_cases h1 : "openai" ∈ excl
    · by_cases h2 : "anthropic" ∈ excl
      · simp [h1, h2] at h
      · simp [h1, h2] at h
        subst h
        exact h2
    · simp [h1] at h
      subst h
      exact h1)

/-- **C1 (counterexample)**: in the cache-hit dispatch of a single
non-streaming request the provider-call collaborator is not invoked and the
cached response is returned, yet the provider's DWA metrics are NOT left
unchanged: the hit flows back through the aggregation loop, which reports
it to DWA via `record_request_result` as a success, so `totalRequests`
moves. -/
theorem C1_counterexample :
    hitDispatch.2 = [false] ∧
    hitDispatch.1.results = [⟨.openai, "gpt-4", "cached answer", 1, 5⟩] ∧
    (hitDispatch.1.state.dwa.metrics .openai).totalRequests
      ≠ (st0.dwa.metrics .openai).totalRequests := by
  decide

/-- **C1 (amended)**: for a non-streaming request whose cache lookup hits,
the dispatch returns the cached response without awaiting
`_call_provider_api` and leaves the provider's `current_load` unchanged,
but the cached result re-enters the aggregation loop of `orchestrate` and
IS reported to DWA through `record_request_result` as a success:
`totalRequests` and `successfulRequests` each grow by one. -/
theorem C1_cache_hit_reported_to_dwa
    (p : LLMProvider) (req : OrchestrationRequest)
    (envOf : LLMProvider → ProviderEnv) (st : OrchState) (now : ℚ)
    (c : CachedResponse)
    (hstream : req.stream = false)
    (hhit : (envOf p).cacheLookup = some c) :
    (orchestrateDispatch req envOf now [p] st).2 = [false] ∧
    (orchestrateDispatch req envOf now [p] st).1.results
      = [⟨p, getProviderModel p, c.response, c.response_time,
          c.tokens_used⟩] ∧
    ((orchestrateDispatch req envOf now [p] st).1.state.loads p).current_load
      = (st.loads p).current_load ∧
    ((orchestrateDispatch req envOf now [p] st).1.state.dwa.metrics
        p).totalRequests
      = (st.dwa.metrics p).totalRequests + 1 ∧
    ((orchestrateDispatch req envOf now [p] st).1.state.dwa.metrics
        p).successfulRequests
      = (st.dwa.metrics p).successfulRequests + 1 := by
  have hexec : executeProviderRequest p req (envOf p) (st.loads p)
      = { outcome := .ok ⟨p, getProviderModel p, c.response,
            c.response_time, c.tokens_used⟩,
          newLoad := st.loads p, calledProvider := false } := by
    unfold executeProviderRequest
    rw [hstream, hhit]
    rfl
  unfold orchestrateDispatch
  simp only [List.map_cons, List.map_nil, hexec]
  simp [processOutcomes, DWAState.record, recordRequestResult,
    updateProviderLoad_current_load, List.find?]

theorem C1_witness :
    hitDispatch.2 = [false] ∧
    hitDispatch.1.results
      = [⟨.openai, getProviderModel .openai, cachedR.response,
          cachedR.response_time, cachedR.tokens_used⟩] ∧
    (hitDispatch.1.state.loads .openai).current_load
      = (st0.loads .openai).current_load ∧
    (hitDispatch.1.state.dwa.metrics .openai).totalRequests
      = (st0.dwa.metrics .openai).totalRequests + 1 ∧
    (hitDispatch.1.state.dwa.metrics .openai).successfulRequests
      = (st0.dwa.metrics .openai).successfulRequests + 1 :=
  C1_cache_hit_reported_to_dwa .openai ⟨"hi", [.openai], false⟩
    (fun _ => hitEnv) st0 0 cachedR rfl rfl

end Orchesity
